import Mathlib

/-!
Shallow embedding of the process-enumeration core of a minimal ps-aux
utility (src/lib.rs).  File contents, system-call results and the user
database are passed in explicitly as environment data; Rust f64 arithmetic
is modelled with exact rationals; Rust panics (an unwrap of a failed
Result, or an out-of-bounds index such as stats[21]) are modelled as an
explicit panic outcome distinct from returned errors.
-/

/-- Result of running a fallible Rust function: it can panic, return an
error value, or return a success value. -/
inductive Outcome (ε α : Type) where
  | panic : Outcome ε α
  | error (e : ε) : Outcome ε α
  | ok (a : α) : Outcome ε α
  deriving DecidableEq

/-- Result of running a Rust function that cannot return an error value
but can panic. -/
inductive PanicOr (α : Type) where
  | panics : PanicOr α
  | value (a : α) : PanicOr α
  deriving DecidableEq

/-- Error type of the library, mirroring enum PsError in src/lib.rs. -/
inductive PsError where
  | FailedToReadFile
  | FailedToGetUptimeFromStat
  | FailedToParseAsFloat
  | FailedToGetSystemTime
  | FailedToGetSysClockTickRate (code : Int)
  deriving DecidableEq

/-- Checks whether the first character list is a prefix of the second;
character-level model of Rust str::starts_with. -/
def isPrefixOfChars : List Char → List Char → Bool
  | [], _ => true
  | _ :: _, [] => false
  | p :: ps, c :: cs => p == c && isPrefixOfChars ps cs

/-- Model of Rust str::starts_with. -/
def strStartsWith (s pre : String) : Bool := isPrefixOfChars pre.data s.data

/-- Model of Rust str::split_once with a character separator: the text
before the first occurrence of the separator and the text after it, or
none when the separator does not occur. -/
def splitOnceChar (s : String) (sep : Char) : Option (String × String) :=
  let pre := s.data.takeWhile (fun c => c != sep)
  match s.data.dropWhile (fun c => c != sep) with
  | [] => none
  | _ :: rest => some (String.mk pre, String.mk rest)

/-- Drops one trailing carriage return, as Rust str::lines does on a line
terminated by a carriage return followed by a line feed. -/
def stripCr (l : List Char) : List Char :=
  if l.getLast? == some '\r' then l.dropLast else l

/-- Accumulator pass behind rustLines: splits at line feeds; a final
segment not terminated by a line feed is kept as written. -/
def linesAux : List Char → List Char → List (List Char)
  | [], acc => if acc.isEmpty then [] else [acc.reverse]
  | c :: cs, acc =>
    if c == '\n' then stripCr acc.reverse :: linesAux cs []
    else linesAux cs (c :: acc)

/-- Model of Rust str::lines. -/
def rustLines (s : String) : List String := (linesAux s.data []).map String.mk

/-- Accumulator pass behind splitWhitespace: maximal runs of
non-whitespace characters, with empty tokens skipped. -/
def splitWsAux : List Char → List Char → List (List Char)
  | [], acc => if acc.isEmpty then [] else [acc.reverse]
  | c :: cs, acc =>
    if c.isWhitespace then
      if acc.isEmpty then splitWsAux cs [] else acc.reverse :: splitWsAux cs []
    else splitWsAux cs (c :: acc)

/-- Model of Rust str::split_whitespace (the files read here only contain
ASCII whitespace, where the two functions agree). -/
def splitWhitespace (s : String) : List String := (splitWsAux s.data []).map String.mk

/-- Reads a run of decimal digits into a number; fails on any non-digit. -/
def parseDigitsAux : List Char → Nat → Option Nat
  | [], acc => some acc
  | c :: cs, acc =>
    if c.isDigit then parseDigitsAux cs (acc * 10 + (c.toNat - 48)) else none

/-- Model of Rust str::parse::<u32>: an optional leading plus sign, one or
more digits, and the value must fit in 32 bits. -/
def parseU32 (s : String) : Option Nat :=
  let cs := match s.data with
    | '+' :: rest => rest
    | l => l
  match cs with
  | [] => none
  | _ :: _ =>
    match parseDigitsAux cs 0 with
    | none => none
    | some n => if n < 2 ^ 32 then some n else none

/-- Syntactic stage of decimal parsing: an optional sign, an integer part
and an optional fractional part after a dot, with at least one digit
overall.  Returns the sign (true for nonnegative), the integer-part
value, the fractional-part value and the fractional-digit count. -/
def parseDecimalParts (s : String) : Option (Bool × Nat × Nat × Nat) :=
  let signAndDigits : Bool × List Char :=
    match s.data with
    | '-' :: rest => (false, rest)
    | '+' :: rest => (true, rest)
    | l => (true, l)
  let intPart := signAndDigits.2.takeWhile (fun c => c != '.')
  let dotPart := signAndDigits.2.dropWhile (fun c => c != '.')
  let fracPart := match dotPart with
    | [] => ([] : List Char)
    | _ :: rest => rest
  if intPart.isEmpty && fracPart.isEmpty then none
  else
    match parseDigitsAux intPart 0, parseDigitsAux fracPart 0 with
    | some i, some f => some (signAndDigits.1, i, f, fracPart.length)
    | _, _ => none

/-- Numeric value of parsed decimal parts as an exact rational. -/
def partsToRat : Bool × Nat × Nat × Nat → ℚ
  | (sign, i, f, len) =>
    (if sign then 1 else -1) * ((i : ℚ) + (f : ℚ) / (10 : ℚ) ^ len)

/-- Model of Rust str::parse::<f64> on the plain decimal inputs this
program reads; the value is kept as an exact rational. -/
def parseDecimal (s : String) : Option ℚ :=
  Option.map partsToRat (parseDecimalParts s)

/-- Largest value of a Rust u64. -/
def u64Max : Nat := 2 ^ 64 - 1

/-- Model of a Rust as-cast from f64 to u64: truncation toward zero,
saturating at zero from below and at the largest u64 from above. -/
def f64ToU64 (x : ℚ) : Nat :=
  if x < 0 then 0 else min (Int.toNat ⌊x⌋) u64Max

/-- Decimal rendering of a natural number, modelling u32::to_string. -/
def natDigitsAux : Nat → Nat → List Char
  | 0, _ => []
  | fuel + 1, n =>
    if n == 0 then [] else natDigitsAux fuel (n / 10) ++ [Char.ofNat (48 + n % 10)]

/-- Decimal rendering of a natural number. -/
def natToString (n : Nat) : String :=
  if n == 0 then "0" else String.mk (natDigitsAux (n + 1) n)

/-- Extracts the process state from the text of /proc/pid/status: walks
the lines looking for the first one starting with the state marker. -/
def find_state_go : List String → Option String
  | [] => none
  | line :: rest =>
    if strStartsWith line "State:" then Option.map Prod.snd (splitOnceChar line '\t')
    else find_state_go rest

/-- Model of fn find_state (src/lib.rs lines 53-62): scans the status text
for a line starting with "State:" and returns the text after the first
tab on that line; returns none when no such line exists, and also when
the first such line has no tab. -/
def find_state (status : String) : Option String := find_state_go (rustLines status)

/-- Model of fn get_start_time (src/lib.rs lines 105-137).  Inputs: the
content of /proc/uptime when readable, the content of /proc/pid/stat when
readable, the current wall clock in seconds since the Unix epoch when
readable, and the clock tick rate.  Output: the computed start time as
whole seconds since the Unix epoch (the source converts this u64 value to
a local DateTime, an injective conversion modelled by carrying the
seconds).  The indexing stats[21] panics when the stat record has fewer
than 22 whitespace-delimited tokens. -/
def get_start_time (uptimeContent statContent : Option String) (nowSecs : Option ℚ)
    (system_clock_tick_rate : ℚ) : Outcome PsError Nat :=
  match uptimeContent with
  | none => .error .FailedToReadFile
  | some uptime_res =>
    match (splitWhitespace uptime_res).head? with
    | none => .error .FailedToGetUptimeFromStat
    | some tok =>
      match parseDecimal tok with
      | none => .error .FailedToParseAsFloat
      | some uptime_seconds =>
        match statContent with
        | none => .error .FailedToReadFile
        | some stat =>
          let stats := splitWhitespace stat
          match stats[21]? with
          | none => .panic
          | some time_stat_str =>
            match parseDecimal time_stat_str with
            | none => .error .FailedToParseAsFloat
            | some time_stat =>
              let start_time_in_seconds := time_stat / system_clock_tick_rate
              match nowSecs with
              | none => .error .FailedToGetSystemTime
              | some now =>
                let boot_time := now - uptime_seconds
                .ok (f64ToU64 (boot_time + start_time_in_seconds))

/-- Model of struct Process (src/lib.rs lines 16-23); start_time carries
the computed whole-second Unix timestamp behind the DateTime value, and
binary_path carries the link target as text. -/
structure Process where
  pid : Nat
  cmdline : Option String
  binary_path : Option String
  owner : Option String
  start_time : Option Nat
  state : Option String
  deriving DecidableEq

/-- One entry of the /proc listing together with the per-process file
contents observable through it; a none content models a failed read. -/
structure DirEntry where
  fileName : String
  isDir : Bool
  cmdlineContent : Option String
  exeLink : Option String
  metadataUid : Option Nat
  statContent : Option String
  statusContent : Option String
  deriving DecidableEq

/-- Host-wide environment: the result of reading the /proc directory
(none models a failed read_dir, and a none element models a failed
per-entry read), the raw sysconf clock-tick value with the errno
observable after it, the content of /proc/uptime, the wall clock, and the
user database behind getpwuid (none models a missing passwd entry). -/
structure SysEnv where
  readDirResult : Option (List (Option DirEntry))
  sysconfClkTck : Int
  errnoVal : Int
  uptimeContent : Option String
  nowSecs : Option ℚ
  userDb : Nat → Option String

/-- Model of fn get_process (src/lib.rs lines 150-216): returns none when
the entry name does not parse as a u32; otherwise builds the record field
by field, absorbing every read failure and every PsError from
get_start_time, but propagating a panic from get_start_time. -/
def get_process (sys : SysEnv) (ent : DirEntry) (rate : ℚ) : PanicOr (Option Process) :=
  match parseU32 ent.fileName with
  | none => .value none
  | some pid =>
    let cmdline := ent.cmdlineContent
    let binary_path := ent.exeLink
    let owner : Option String :=
      match ent.metadataUid with
      | none => none
      | some uid =>
        match sys.userDb uid with
        | none => some (natToString uid)
        | some nm => some nm
    let state : Option String :=
      match ent.statusContent with
      | none => none
      | some txt => find_state txt
    match get_start_time sys.uptimeContent ent.statContent sys.nowSecs rate with
    | .panic => .panics
    | .error _ =>
      .value (some { pid := pid, cmdline := cmdline, binary_path := binary_path,
                     owner := owner, start_time := none, state := state })
    | .ok t =>
      .value (some { pid := pid, cmdline := cmdline, binary_path := binary_path,
                     owner := owner, start_time := some t, state := state })

/-- The loop body of fn get_processes (src/lib.rs lines 240-251): each
entry is unwrapped (a failed per-entry read panics), non-directories are
skipped, and records are collected in listing order. -/
def processEntries (sys : SysEnv) (rate : ℚ) : List (Option DirEntry) → PanicOr (List Process)
  | [] => .value []
  | none :: _ => .panics
  | some ent :: rest =>
    if ent.isDir then
      match get_process sys ent rate with
      | .panics => .panics
      | .value none => processEntries sys rate rest
      | .value (some p) =>
        match processEntries sys rate rest with
        | .panics => .panics
        | .value l => .value (p :: l)
    else processEntries sys rate rest

/-- Model of fn get_processes (src/lib.rs lines 227-253): read_dir comes
first and its failure is unwrapped into a panic; then the sysconf value is
compared with the failure sentinel -1 (as f64, which for integer inputs is
the same comparison) and on failure the errno is wrapped into the
clock-rate error; then the entries are processed. -/
def get_processes (sys : SysEnv) : Outcome PsError (List Process) :=
  match sys.readDirResult with
  | none => .panic
  | some entries =>
    if sys.sysconfClkTck = -1 then
      .error (.FailedToGetSysClockTickRate sys.errnoVal)
    else
      match processEntries sys ((sys.sysconfClkTck : ℚ)) entries with
      | .panics => .panic
      | .value l => .ok l

/-- Left-aligned space padding to a minimum width, modelling a Rust width
format specifier; longer strings are kept whole. -/
def padTo (s : String) (w : Nat) : String :=
  s ++ String.mk (List.replicate (w - s.data.length) ' ')

/-- Civil calendar date (year, month, day) from days since 1970-01-01,
the standard days-to-civil algorithm used for Gregorian dates. -/
def civilFromDays (z0 : Nat) : Nat × Nat × Nat :=
  let z := z0 + 719468
  let era := z / 146097
  let doe := z % 146097
  let yoe := (doe - doe / 1460 + doe / 36524 - doe / 146096) / 365
  let y := yoe + era * 400
  let doy := doe - (365 * yoe + yoe / 4 - yoe / 100)
  let mp := (5 * doy + 2) / 153
  let d := doy - (153 * mp + 2) / 5 + 1
  let m := if mp < 10 then mp + 3 else mp - 9
  (if m ≤ 2 then y + 1 else y, m, d)

/-- Zero-padded two-digit decimal rendering. -/
def pad2 (n : Nat) : String := if n < 10 then "0" ++ natToString n else natToString n

/-- Zero-padded four-digit decimal rendering. -/
def pad4 (n : Nat) : String :=
  if n < 10 then "000" ++ natToString n
  else if n < 100 then "00" ++ natToString n
  else if n < 1000 then "0" ++ natToString n
  else natToString n

/-- Rendering of a whole-second timestamp with the chrono format string
"%Y-%m-%d %H:%M:%S". -/
def formatYmdHms (t : Nat) : String :=
  let days := t / 86400
  let rem := t % 86400
  let ymd := civilFromDays days
  pad4 ymd.1 ++ "-" ++ pad2 ymd.2.1 ++ "-" ++ pad2 ymd.2.2 ++ " " ++
  pad2 (rem / 3600) ++ ":" ++ pad2 (rem % 3600 / 60) ++ ":" ++ pad2 (rem % 60)

/-- The start-time column text: a present timestamp is shifted by the
local-timezone offset (chrono Local is modelled as a fixed offset in
seconds) and rendered with the fixed format; an absent one renders as the
literal "unknown" (src/lib.rs lines 75-79). -/
def startTimeColumn (startT : Option Nat) (tz : Int) : String :=
  match startT with
  | some t => formatYmdHms (Int.toNat ((t : Int) + tz))
  | none => "unknown"

/-- Model of the Display implementation for Process (src/lib.rs lines
81-94, the non-alternate branch used by main.rs): the six column texts
left-padded to fixed widths, separated by single spaces except for the
six literal spaces before the start-time column, with a trailing line
feed.  A missing owner, cmdline or state renders as "-"; a missing
binary path renders as the empty text of PathBuf::default(). -/
def displayProcess (tz : Int) (p : Process) : String :=
  padTo (natToString p.pid) 10 ++ " " ++
  padTo (Option.getD p.owner "-") 15 ++ " " ++
  padTo (Option.getD p.cmdline "-") 15 ++ " " ++
  padTo (Option.getD p.binary_path "") 30 ++ "      " ++
  padTo (startTimeColumn p.start_time tz) 20 ++ " " ++
  padTo (Option.getD p.state "-") 15 ++ "\n"

/-- Joins column texts padded to given widths, each followed by its
separator text; written from the wording of the spec (one line per record
with fixed-width columns). -/
def renderColumns : List (String × Nat × String) → String
  | [] => ""
  | (s, w, sep) :: rest => padTo s w ++ sep ++ renderColumns rest

/-- Owner column as the spec words it: the resolved owner text, or a
single placeholder character when absent. -/
def specOwnerCol (p : Process) : String :=
  match p.owner with
  | some s => s
  | none => "-"

/-- Cmdline column as the spec words it. -/
def specCmdlineCol (p : Process) : String :=
  match p.cmdline with
  | some s => s
  | none => "-"

/-- State column as the spec words it. -/
def specStateCol (p : Process) : String :=
  match p.state with
  | some s => s
  | none => "-"

/-- Start-time column as the spec words it: the fixed YYYY-MM-DD HH:MM:SS
local-time rendering when present, a literal placeholder when absent. -/
def specStartCol (tz : Int) (p : Process) : String :=
  match p.start_time with
  | some t => formatYmdHms (Int.toNat ((t : Int) + tz))
  | none => "unknown"

/-- Binary-path column as claim C9 words it: a missing optional field
renders as a single placeholder character. -/
def specPathColClaim (p : Process) : String :=
  match p.binary_path with
  | some s => s
  | none => "-"

/-- Binary-path column as the code actually renders it: a missing path
renders as the empty text. -/
def specPathColAmended (p : Process) : String :=
  match p.binary_path with
  | some s => s
  | none => ""

/-- The rendered line as claim C9 states it (missing binary path as a
single placeholder character). -/
def specLineClaim (tz : Int) (p : Process) : String :=
  renderColumns
    [(natToString p.pid, 10, " "),
     (specOwnerCol p, 15, " "),
     (specCmdlineCol p, 15, " "),
     (specPathColClaim p, 30, "      "),
     (specStartCol tz p, 20, " "),
     (specStateCol p, 15, "\n")]

/-- The rendered line as the amended claim states it (missing binary path
as the empty text). -/
def specLineAmended (tz : Int) (p : Process) : String :=
  renderColumns
    [(natToString p.pid, 10, " "),
     (specOwnerCol p, 15, " "),
     (specCmdlineCol p, 15, " "),
     (specPathColAmended p, 30, "      "),
     (specStartCol tz p, 20, " "),
     (specStateCol p, 15, "\n")]

/-- Concrete scheduling-statistics record with 22 tokens whose 22nd token
is 12345, from the spec's start-time scenario. -/
def c5stat : String := "1 2 3 4 5 6 7 8 9 10 11 12 13 14 15 16 17 18 19 20 21 12345"

/-- Concrete scheduling-statistics record with 22 tokens whose 22nd token
is 0. -/
def c10stat : String := "1 2 3 4 5 6 7 8 9 10 11 12 13 14 15 16 17 18 19 20 21 0"

/-- Concrete scheduling-statistics record with 22nd token 100. -/
def c6statA : String := "1 2 3 4 5 6 7 8 9 10 11 12 13 14 15 16 17 18 19 20 21 100"

/-- Concrete scheduling-statistics record with 22nd token 200. -/
def c6statB : String := "1 2 3 4 5 6 7 8 9 10 11 12 13 14 15 16 17 18 19 20 21 200"

theorem strAppendAssocH (a b c : String) : a ++ b ++ c = a ++ (b ++ c) := by
  rcases a with ⟨la⟩
  rcases b with ⟨lb⟩
  rcases c with ⟨lc⟩
  show String.mk (la ++ lb ++ lc) = String.mk (la ++ (lb ++ lc))
  rw [List.append_assoc]

theorem strAppendEmptyH (a : String) : a ++ "" = a := by
  rcases a with ⟨la⟩
  show String.mk (la ++ []) = String.mk la
  rw [List.append_nil]

theorem gst_ok (uc sc : String) (nw r u t : ℚ) (w tw : String)
    (h1 : (splitWhitespace uc).head? = some w) (h2 : parseDecimal w = some u)
    (h3 : (splitWhitespace sc)[21]? = some tw) (h4 : parseDecimal tw = some t) :
    get_start_time (some uc) (some sc) (some nw) r = .ok (f64ToU64 (nw - u + t / r)) := by
  simp only [get_start_time, h1, h2, h3, h4]

theorem f64ToU64_neg (x : ℚ) (h : x < 0) : f64ToU64 x = 0 := by
  simp [f64ToU64, h]

theorem f64ToU64_mono (x y : ℚ) (h : x ≤ y) : f64ToU64 x ≤ f64ToU64 y := by
  unfold f64ToU64
  by_cases hx : x < 0
  · rw [if_pos hx]
    exact Nat.zero_le _
  · have hy : ¬ y < 0 := fun hy => hx (lt_of_le_of_lt h hy)
    rw [if_neg hx, if_neg hy]
    exact min_le_min (Int.toNat_le_toNat (Int.floor_mono h)) le_rfl

theorem f64ToU64_eq_floor (x : ℚ) (h0 : 0 ≤ x) (h1 : x ≤ 2 ^ 63) :
    f64ToU64 x = Int.toNat ⌊x⌋ := by
  unfold f64ToU64
  rw [if_neg (not_lt.mpr h0)]
  refine Nat.min_eq_left ?_
  rw [Int.toNat_le]
  have hc : ((2 : ℚ) ^ 63) = ((2 ^ 63 : ℤ) : ℚ) := by push_cast; ring
  have hf : ⌊x⌋ ≤ (2 ^ 63 : ℤ) := by
    have := Int.floor_mono h1
    rwa [hc, Int.floor_intCast] at this
  refine le_trans hf ?_
  norm_num [u64Max]

theorem parseDecimal_eq (s : String) (parts : Bool × Nat × Nat × Nat) (q : ℚ)
    (hp : parseDecimalParts s = some parts) (hq : partsToRat parts = q) :
    parseDecimal s = some q := by
  unfold parseDecimal
  rw [hp]
  simp [hq]

theorem f64ToU64_eq_nat (x : ℚ) (n : Nat) (hx : x = (n : ℚ)) (hn : n ≤ u64Max) :
    f64ToU64 x = n := by
  subst hx
  unfold f64ToU64
  rw [if_neg (not_lt.mpr (by positivity)), Int.floor_natCast, Int.toNat_natCast,
    Nat.min_eq_left hn]

/-- C5: on success the start-time computation returns the wall clock minus
the host uptime plus the process ticks divided by the tick rate, truncated
to whole seconds; with uptime 48267.42, 22nd token 12345 and tick rate 100
the process start offset is 123.45 seconds after boot.  (The source then
converts this whole-second count to a local calendar value, an injective
conversion modelled by carrying the seconds.) -/
theorem c5_start_time_formula (now : ℚ) (h1 : (48267.42 : ℚ) ≤ now) (h2 : now ≤ 2 ^ 62) :
    get_start_time (some "48267.42 96881.17") (some c5stat) (some now) 100
      = .ok (Int.toNat ⌊now - 48267.42 + 123.45⌋) := by
  have e1 : (splitWhitespace "48267.42 96881.17").head? = some "48267.42" := by decide
  have e2 : parseDecimal "48267.42" = some (48267.42 : ℚ) :=
    parseDecimal_eq _ (true, 48267, 42, 2) _ (by decide) (by norm_num [partsToRat])
  have e3 : (splitWhitespace c5stat)[21]? = some "12345" := by decide
  have e4 : parseDecimal "12345" = some (12345 : ℚ) :=
    parseDecimal_eq _ (true, 12345, 0, 0) _ (by decide) (by norm_num [partsToRat])
  rw [gst_ok "48267.42 96881.17" c5stat now 100 48267.42 12345 "48267.42" "12345" e1 e2 e3 e4]
  have hx : (12345 : ℚ) / 100 = 123.45 := by norm_num
  rw [hx]
  have hge : (0 : ℚ) ≤ now - 48267.42 + 123.45 := by
    have : (0 : ℚ) ≤ now - 48267.42 := by linarith
    have h45 : (0 : ℚ) ≤ 123.45 := by norm_num
    linarith
  have hle : now - 48267.42 + 123.45 ≤ 2 ^ 63 := by
    have hb : (2 : ℚ) ^ 62 + 123.45 ≤ 2 ^ 63 := by norm_num
    linarith
  rw [f64ToU64_eq_floor _ hge hle]

/-- Witness for C5 at the concrete wall clock 50000. -/
theorem c5_start_time_formula_witness :
    get_start_time (some "48267.42 96881.17") (some c5stat) (some 50000) 100 = .ok 1856 := by
  have h := c5_start_time_formula 50000 (by norm_num) (by norm_num)
  rw [h]
  have hf : ⌊(50000 : ℚ) - 48267.42 + 123.45⌋ = 1856 := by
    rw [Int.floor_eq_iff]
    constructor
    · norm_num
    · norm_num
  rw [hf]
  rfl

/-- C10: the computed start timestamp never precedes the Unix epoch: when
the wall clock minus the uptime plus the tick offset is negative, the
f64-to-u64 conversion at src/lib.rs line 130 saturates at zero instead of
wrapping or failing, so the result is the epoch itself. -/
theorem c10_saturates (uc sc : String) (nw r u t : ℚ) (w tw : String)
    (h1 : (splitWhitespace uc).head? = some w) (h2 : parseDecimal w = some u)
    (h3 : (splitWhitespace sc)[21]? = some tw) (h4 : parseDecimal tw = some t)
    (h5 : nw - u + t / r < 0) :
    get_start_time (some uc) (some sc) (some nw) r = .ok 0 := by
  rw [gst_ok uc sc nw r u t w tw h1 h2 h3 h4, f64ToU64_neg _ h5]

/-- Witness for C10: a wall clock smaller than the uptime drives the sum
negative and the result saturates at zero. -/
theorem c10_saturates_witness :
    get_start_time (some "100.0 50.0") (some c10stat) (some 0) 100 = .ok 0 :=
  c10_saturates "100.0 50.0" c10stat 0 100 100 0 "100.0" "0"
    (by decide)
    (parseDecimal_eq _ (true, 100, 0, 1) _ (by decide) (by norm_num [partsToRat]))
    (by decide)
    (parseDecimal_eq _ (true, 0, 0, 0) _ (by decide) (by norm_num [partsToRat]))
    (by norm_num)

/-- C6: for a positive tick rate the start-time computation is
deterministic (equal inputs give equal outcomes) and monotonic in the tick
count: holding the uptime, tick rate and wall clock fixed, a larger 22nd
token never produces an earlier timestamp. -/
theorem c6_monotone (uc sc1 sc2 : String) (nw r u t1 t2 : ℚ) (w w1 w2 : String)
    (hr : 0 < r)
    (h1 : (splitWhitespace uc).head? = some w) (h2 : parseDecimal w = some u)
    (h3 : (splitWhitespace sc1)[21]? = some w1) (h4 : parseDecimal w1 = some t1)
    (h5 : (splitWhitespace sc2)[21]? = some w2) (h6 : parseDecimal w2 = some t2)
    (ht : t1 ≤ t2) :
    (∀ o1 o2 : Outcome PsError Nat,
        get_start_time (some uc) (some sc1) (some nw) r = o1 →
        get_start_time (some uc) (some sc1) (some nw) r = o2 → o1 = o2) ∧
    (∀ v1 v2 : Nat,
        get_start_time (some uc) (some sc1) (some nw) r = .ok v1 →
        get_start_time (some uc) (some sc2) (some nw) r = .ok v2 → v1 ≤ v2) := by
  constructor
  · intro o1 o2 ha hb
    exact ha.symm.trans hb
  · intro v1 v2 ha hb
    rw [gst_ok uc sc1 nw r u t1 w w1 h1 h2 h3 h4] at ha
    rw [gst_ok uc sc2 nw r u t2 w w2 h1 h2 h5 h6] at hb
    injection ha with ha'
    injection hb with hb'
    rw [← ha', ← hb']
    refine f64ToU64_mono _ _ ?_
    have hdiv : t1 / r ≤ t2 / r := by gcongr
    linarith

/-- Witness for C6 at concrete inputs: tick counts 100 and 200 give
timestamps 99991 and 99992. -/
theorem c6_monotone_witness :
    get_start_time (some "10.0") (some c6statA) (some 100000) 100 = .ok 99991 ∧
    (99991 : Nat) ≤ 99992 := by
  have p1 : parseDecimal "10.0" = some (10 : ℚ) :=
    parseDecimal_eq _ (true, 10, 0, 1) _ (by decide) (by norm_num [partsToRat])
  have p2 : parseDecimal "100" = some (100 : ℚ) :=
    parseDecimal_eq _ (true, 100, 0, 0) _ (by decide) (by norm_num [partsToRat])
  have p3 : parseDecimal "200" = some (200 : ℚ) :=
    parseDecimal_eq _ (true, 200, 0, 0) _ (by decide) (by norm_num [partsToRat])
  have hA : get_start_time (some "10.0") (some c6statA) (some 100000) 100 = .ok 99991 := by
    rw [gst_ok "10.0" c6statA 100000 100 10 100 "10.0" "100" (by decide) p1 (by decide) p2]
    rw [f64ToU64_eq_nat _ 99991 (by norm_num) (by norm_num [u64Max])]
  have hB : get_start_time (some "10.0") (some c6statB) (some 100000) 100 = .ok 99992 := by
    rw [gst_ok "10.0" c6statB 100000 100 10 200 "10.0" "200" (by decide) p1 (by decide) p3]
    rw [f64ToU64_eq_nat _ 99992 (by norm_num) (by norm_num [u64Max])]
  refine ⟨hA, ?_⟩
  exact (c6_monotone "10.0" c6statA c6statB 100000 100 10 100 200 "10.0" "100" "200"
    (by norm_num) (by decide) p1 (by decide) p2 (by decide) p3
    (by norm_num)).2 99991 99992 hA hB

/-- C7: find_state applied to status text containing the tab-separated
line State: S (sleeping) returns S (sleeping); applied to text with no
line beginning with State: it returns none. -/
theorem c7_find_state :
    find_state "Name:\tbash\nState:\tS (sleeping)\nPid:\t7" = some "S (sleeping)" ∧
    ∀ s : String, (∀ l ∈ rustLines s, strStartsWith l "State:" = false) → find_state s = none := by
  constructor
  · decide
  · intro s h
    unfold find_state
    have hgo : ∀ ls : List String,
        (∀ l ∈ ls, strStartsWith l "State:" = false) → find_state_go ls = none := by
      intro ls
      induction ls with
      | nil => intro _; rfl
      | cons a t ih =>
        intro ha
        unfold find_state_go
        rw [ha a (List.mem_cons_self a t)]
        simp only [Bool.false_eq_true, if_false]
        exact ih (fun l hl => ha l (List.mem_cons_of_mem a hl))
    exact hgo (rustLines s) h

/-- Witness for C7: the general no-State-line branch applied to a concrete
status text with no State line. -/
theorem c7_find_state_witness :
    find_state "Name:\tbash\nState:\tS (sleeping)\nPid:\t7" = some "S (sleeping)" ∧
    find_state "Name:\tx\nUid:\t0" = none :=
  ⟨c7_find_state.1, c7_find_state.2 "Name:\tx\nUid:\t0" (by decide)⟩

/-- Environment whose /proc listing fails and whose tick query would
report the failure sentinel with errno 38. -/
def envListFailTickFail : SysEnv :=
  { readDirResult := none, sysconfClkTck := -1, errnoVal := 38,
    uptimeContent := some "10.0 20.0", nowSecs := some 0, userDb := fun _ => none }

/-- Environment whose /proc listing fails while the tick query succeeds. -/
def envListFailTickOk : SysEnv :=
  { readDirResult := none, sysconfClkTck := 100, errnoVal := 0,
    uptimeContent := some "10.0 20.0", nowSecs := some 0, userDb := fun _ => none }

/-- Environment for a process whose scheduling record is readable but has
fewer than 22 tokens. -/
def sysStatShort : SysEnv :=
  { readDirResult := some [], sysconfClkTck := 100, errnoVal := 0,
    uptimeContent := some "5.0 3.0", nowSecs := some 0, userDb := fun _ => none }

/-- Directory entry whose scheduling record has fewer than 22 tokens. -/
def entStatShort : DirEntry :=
  { fileName := "7", isDir := true, cmdlineContent := none, exeLink := none,
    metadataUid := none, statContent := some "1 2 3", statusContent := none }

/-- Environment in which every per-process read fails. -/
def sysAllMissing : SysEnv :=
  { readDirResult := some [], sysconfClkTck := 100, errnoVal := 0,
    uptimeContent := none, nowSecs := none, userDb := fun _ => none }

/-- Directory entry for which every metadata read fails. -/
def entAllMissing : DirEntry :=
  { fileName := "9", isDir := true, cmdlineContent := none, exeLink := none,
    metadataUid := none, statContent := none, statusContent := none }

/-- Environment whose user database maps user 1000 to alice. -/
def sysAlice : SysEnv :=
  { readDirResult := some [], sysconfClkTck := 100, errnoVal := 0,
    uptimeContent := none, nowSecs := some 0,
    userDb := fun u => if u == 1000 then some "alice" else none }

/-- Directory entry owned by user 1000. -/
def entAlice : DirEntry :=
  { fileName := "42", isDir := true, cmdlineContent := some "bash", exeLink := some "/bin/bash",
    metadataUid := some 1000, statContent := none,
    statusContent := some "State:\tS (sleeping)" }

/-- Concrete scheduling-statistics record with 22 tokens whose 22nd token
is not a number. -/
def statJunk22 : String := "1 2 3 4 5 6 7 8 9 10 11 12 13 14 15 16 17 18 19 20 21 xyz"

/-- C1 counterexample: the claim predicts the clock-rate-unavailable error
whenever the tick query reports its failure sentinel, but the source
unwraps read_dir before querying the tick rate, so when the listing also
fails the enumeration panics instead of returning that error. -/
theorem c1_counterexample :
    envListFailTickFail.sysconfClkTck = -1 ∧
    get_processes envListFailTickFail = Outcome.panic ∧
    get_processes envListFailTickFail
      ≠ Outcome.error (PsError.FailedToGetSysClockTickRate 38) := by
  refine ⟨rfl, rfl, ?_⟩
  intro h
  exact Outcome.noConfusion h

/-- C1 (amended): when the listing of the process root succeeds and the
tick query reports its failure sentinel, get_processes returns the
clock-rate-unavailable error carrying the reported errno and yields no
record list at all. -/
theorem c1_tick_failure_fatal (sys : SysEnv) (es : List (Option DirEntry))
    (hdir : sys.readDirResult = some es) (htick : sys.sysconfClkTck = -1) :
    get_processes sys = .error (.FailedToGetSysClockTickRate sys.errnoVal) ∧
    ∀ l : List Process, get_processes sys ≠ .ok l := by
  have h : get_processes sys = .error (.FailedToGetSysClockTickRate sys.errnoVal) := by
    simp only [get_processes, hdir]
    rw [if_pos htick]
  refine ⟨h, ?_⟩
  intro l hl
  rw [h] at hl
  exact Outcome.noConfusion hl

/-- Witness for the amended C1 at a concrete environment. -/
theorem c1_tick_failure_fatal_witness :
    get_processes { readDirResult := some [], sysconfClkTck := -1, errnoVal := 7,
                    uptimeContent := none, nowSecs := none, userDb := fun _ => none }
      = .error (.FailedToGetSysClockTickRate 7) :=
  (c1_tick_failure_fatal _ [] rfl rfl).1

/-- C2 counterexample: a readable scheduling record with fewer than 22
whitespace-delimited tokens makes get_start_time panic on the
out-of-bounds index stats[21] instead of returning a parse or format
error kind, so the function is not total. -/
theorem c2_counterexample :
    get_start_time (some "48267.42 96881.17") (some "1 2 3") (some 0) 100 = Outcome.panic := by
  decide

/-- C2 (amended): a missing first uptime token yields the uptime-extraction
error; a present but invalid first uptime token or 22nd scheduling token
yields the float-parse error; these returned errors are absorbed by the
extractor as an absent start_time field; but a missing 22nd token (fewer
than 22 tokens) makes get_start_time panic rather than return an error. -/
theorem c2_parse_failures (uc sc : String) (nw : Option ℚ) (r : ℚ) :
    ((splitWhitespace uc).head? = none →
      get_start_time (some uc) (some sc) nw r = .error .FailedToGetUptimeFromStat) ∧
    (∀ w, (splitWhitespace uc).head? = some w → parseDecimal w = none →
      get_start_time (some uc) (some sc) nw r = .error .FailedToParseAsFloat) ∧
    (∀ w u, (splitWhitespace uc).head? = some w → parseDecimal w = some u →
      (splitWhitespace sc)[21]? = none →
      get_start_time (some uc) (some sc) nw r = .panic) ∧
    (∀ w u tw, (splitWhitespace uc).head? = some w → parseDecimal w = some u →
      (splitWhitespace sc)[21]? = some tw → parseDecimal tw = none →
      get_start_time (some uc) (some sc) nw r = .error .FailedToParseAsFloat) ∧
    (∀ (sys : SysEnv) (ent : DirEntry) (rate : ℚ) (e : PsError) (pid : Nat),
      parseU32 ent.fileName = some pid →
      get_start_time sys.uptimeContent ent.statContent sys.nowSecs rate = .error e →
      ∃ p : Process, get_process sys ent rate = .value (some p) ∧ p.start_time = none) := by
  refine ⟨?_, ?_, ?_, ?_, ?_⟩
  · intro h
    simp only [get_start_time, h]
  · intro w hw hp
    simp only [get_start_time, hw, hp]
  · intro w u hw hp h21
    simp only [get_start_time, hw, hp, h21]
  · intro w u tw hw hp h21 hpt
    simp only [get_start_time, hw, hp, h21, hpt]
  · intro sys ent rate e pid hpid hgst
    simp only [get_process, hpid, hgst]
    exact ⟨_, rfl, rfl⟩

/-- Witness for the amended C2 at concrete inputs for each failure mode. -/
theorem c2_parse_failures_witness :
    get_start_time (some "") (some "1 2 3") (some 0) 100
      = .error .FailedToGetUptimeFromStat ∧
    get_start_time (some "abc") (some "1 2 3") (some 0) 100
      = .error .FailedToParseAsFloat ∧
    get_start_time (some "5.0") (some "1 2 3") (some 0) 100 = .panic ∧
    get_start_time (some "5.0") (some statJunk22) (some 0) 100
      = .error .FailedToParseAsFloat := by
  have p5 : parseDecimal "5.0" = some (5 : ℚ) :=
    parseDecimal_eq _ (true, 5, 0, 1) _ (by decide) (by norm_num [partsToRat])
  refine ⟨?_, ?_, ?_, ?_⟩
  · exact (c2_parse_failures "" "1 2 3" (some 0) 100).1 (by decide)
  · exact (c2_parse_failures "abc" "1 2 3" (some 0) 100).2.1 "abc" (by decide) (by decide)
  · exact (c2_parse_failures "5.0" "1 2 3" (some 0) 100).2.2.1 "5.0" 5 (by decide) p5 (by decide)
  · exact (c2_parse_failures "5.0" statJunk22 (some 0) 100).2.2.2.1 "5.0" 5 "xyz"
      (by decide) p5 (by decide) (by decide)

/-- C3 counterexample: the claim says a listing failure is surfaced to the
caller as a returned error, but the source unwraps the failed read_dir and
panics, returning no error value. -/
theorem c3_counterexample :
    get_processes envListFailTickOk = Outcome.panic ∧
    get_processes envListFailTickOk ≠ Outcome.error PsError.FailedToReadFile := by
  refine ⟨rfl, ?_⟩
  intro h
  exact Outcome.noConfusion h

/-- C3 (amended): get_processes returns an error value exactly when the
listing succeeded and the tick query reported its sentinel, and that error
is the clock-rate error carrying the errno; a listing failure aborts by
panic instead of a returned error; no other failure produces an error
value. -/
theorem c3_error_iff_tick (sys : SysEnv) :
    (sys.readDirResult = none → get_processes sys = .panic) ∧
    (∀ e : PsError, get_processes sys = .error e ↔
      (∃ es, sys.readDirResult = some es) ∧ sys.sysconfClkTck = -1 ∧
        e = .FailedToGetSysClockTickRate sys.errnoVal) := by
  constructor
  · intro h
    simp only [get_processes, h]
  · intro e
    constructor
    · intro h
      cases hdir : sys.readDirResult with
      | none =>
        simp only [get_processes, hdir] at h
        exact Outcome.noConfusion h
      | some es =>
        simp only [get_processes, hdir] at h
        by_cases htick : sys.sysconfClkTck = -1
        · rw [if_pos htick] at h
          injection h with he
          exact ⟨⟨es, rfl⟩, htick, he.symm⟩
        · rw [if_neg htick] at h
          cases hpe : processEntries sys ((sys.sysconfClkTck : ℚ)) es with
          | panics =>
            simp only [hpe] at h
            exact Outcome.noConfusion h
          | value l =>
            simp only [hpe] at h
            exact Outcome.noConfusion h
    · rintro ⟨⟨es, hdir⟩, htick, he⟩
      simp only [get_processes, hdir]
      rw [if_pos htick, he]

/-- Witness for the amended C3 at a concrete environment. -/
theorem c3_error_iff_tick_witness :
    get_processes { readDirResult := some [], sysconfClkTck := -1, errnoVal := 38,
                    uptimeContent := none, nowSecs := none, userDb := fun _ => none }
      = .error (.FailedToGetSysClockTickRate 38) :=
  ((c3_error_iff_tick _).2 _).mpr ⟨⟨[], rfl⟩, rfl, rfl⟩

/-- C4 counterexample: extraction propagates a panic to the enumerator when
the process's scheduling record is readable but has fewer than 22 tokens,
because get_start_time indexes stats[21] unconditionally. -/
theorem c4_counterexample :
    get_process sysStatShort entStatShort 100 = PanicOr.panics := by
  decide

/-- C4 (amended): for an entry whose name parses as a PID, extraction never
returns an error value, and it panics exactly when get_start_time panics
(a readable scheduling record with fewer than 22 tokens after a readable,
parsable uptime); otherwise it returns a record carrying that pid, and when
every metadata read fails and the start-time computation returns an error,
the record contains only the pid, which is a legitimate output. -/
theorem c4_extraction_policy (sys : SysEnv) (ent : DirEntry) (rate : ℚ) (pid : Nat)
    (hpid : parseU32 ent.fileName = some pid) :
    (get_process sys ent rate = .panics ↔
      get_start_time sys.uptimeContent ent.statContent sys.nowSecs rate = .panic) ∧
    (∀ o, get_process sys ent rate = .value o →
      get_start_time sys.uptimeContent ent.statContent sys.nowSecs rate ≠ .panic ∧
      ∃ p : Process, o = some p ∧ p.pid = pid) ∧
    (ent.cmdlineContent = none → ent.exeLink = none → ent.metadataUid = none →
      ent.statusContent = none →
      ∀ e : PsError,
        get_start_time sys.uptimeContent ent.statContent sys.nowSecs rate = .error e →
        get_process sys ent rate = .value (some
          { pid := pid, cmdline := none, binary_path := none, owner := none,
            start_time := none, state := none })) := by
  cases hg : get_start_time sys.uptimeContent ent.statContent sys.nowSecs rate with
  | panic =>
    refine ⟨?_, ?_, ?_⟩
    · simp only [get_process, hpid, hg]
    · intro o ho
      simp only [get_process, hpid, hg] at ho
      exact PanicOr.noConfusion ho
    · intro h1 h2 h3 h4 e he
      exact Outcome.noConfusion he
  | error e0 =>
    refine ⟨?_, ?_, ?_⟩
    · constructor
      · intro h
        simp only [get_process, hpid, hg] at h
        exact PanicOr.noConfusion h
      · intro h
        exact Outcome.noConfusion h
    · intro o ho
      simp only [get_process, hpid, hg] at ho
      injection ho with ho'
      exact ⟨fun hh => Outcome.noConfusion hh, _, ho'.symm, rfl⟩
    · intro h1 h2 h3 h4 e he
      simp only [get_process, hpid, hg, h1, h2, h3, h4]
  | ok t =>
    refine ⟨?_, ?_, ?_⟩
    · constructor
      · intro h
        simp only [get_process, hpid, hg] at h
        exact PanicOr.noConfusion h
      · intro h
        exact Outcome.noConfusion h
    · intro o ho
      simp only [get_process, hpid, hg] at ho
      injection ho with ho'
      exact ⟨fun hh => Outcome.noConfusion hh, _, ho'.symm, rfl⟩
    · intro h1 h2 h3 h4 e he
      exact Outcome.noConfusion he

/-- Witness for the amended C4: with every read failing, the extractor
still returns the record containing only the pid. -/
theorem c4_extraction_policy_witness :
    get_process sysAllMissing entAllMissing 100 = .value (some
      { pid := 9, cmdline := none, binary_path := none, owner := none,
        start_time := none, state := none }) :=
  (c4_extraction_policy sysAllMissing entAllMissing 100 9 (by decide)).2.2
    rfl rfl rfl rfl PsError.FailedToReadFile (by decide)

/-- C8: when the entry name parses as a PID and extraction yields a record,
a readable ownership metadata uid with a user-database entry resolves the
owner to that name (in particular to alice for an entry named alice), a
uid with no entry resolves to the uid rendered in decimal, and the owner is
absent exactly when the metadata query itself failed. -/
theorem c8_owner_resolution (sys : SysEnv) (ent : DirEntry) (rate : ℚ) (pid : Nat) (p : Process)
    (hpid : parseU32 ent.fileName = some pid)
    (hp : get_process sys ent rate = .value (some p)) :
    (∀ uid nm, ent.metadataUid = some uid → sys.userDb uid = some nm → p.owner = some nm) ∧
    (∀ uid, ent.metadataUid = some uid → sys.userDb uid = none →
      p.owner = some (natToString uid)) ∧
    (ent.metadataUid = none → p.owner = none) := by
  cases hg : get_start_time sys.uptimeContent ent.statContent sys.nowSecs rate with
  | panic =>
    simp only [get_process, hpid, hg] at hp
    exact PanicOr.noConfusion hp
  | error e0 =>
    simp only [get_process, hpid, hg] at hp
    injection hp with hp'
    injection hp' with hp''
    refine ⟨?_, ?_, ?_⟩
    · intro uid nm hm hdb
      rw [← hp'']
      simp [hm, hdb]
    · intro uid hm hdb
      rw [← hp'']
      simp [hm, hdb]
    · intro hm
      rw [← hp'']
      simp [hm]
  | ok t =>
    simp only [get_process, hpid, hg] at hp
    injection hp with hp'
    injection hp' with hp''
    refine ⟨?_, ?_, ?_⟩
    · intro uid nm hm hdb
      rw [← hp'']
      simp [hm, hdb]
    · intro uid hm hdb
      rw [← hp'']
      simp [hm, hdb]
    · intro hm
      rw [← hp'']
      simp [hm]

/-- Witness for C8: user 1000 has the entry alice and the extracted record
carries owner alice. -/
theorem c8_owner_resolution_witness :
    (Process.mk 42 (some "bash") (some "/bin/bash") (some "alice") none
      (some "S (sleeping)")).owner = some "alice" :=
  (c8_owner_resolution sysAlice entAlice 100 42 _ (by decide) (by decide)).1
    1000 "alice" rfl (by decide)

/-- C9 counterexample: for a record with a missing binary path the line the
code renders differs from the line the claim describes, because the
missing path renders as the empty text of PathBuf::default() rather than
as a single placeholder character. -/
theorem c9_counterexample :
    displayProcess 0 (Process.mk 1 none none none none none)
      ≠ specLineClaim 0 (Process.mk 1 none none none none none) := by
  decide

/-- C9 (amended): every rendered line is exactly the fixed-width columns
PID, Owner, Cmdline, Binary Path, Start Time, State in that order; a
present start time renders in the fixed YYYY-MM-DD HH:MM:SS local format
and an absent one as the literal placeholder "unknown"; missing owner,
cmdline and state render as the single placeholder character, while a
missing binary path renders as the empty text. -/
theorem c9_rendering (tz : Int) (p : Process) :
    displayProcess tz p = specLineAmended tz p := by
  rcases p with ⟨pid, cl, bp, ow, st, sta⟩
  cases cl <;> cases bp <;> cases ow <;> cases st <;> cases sta <;>
    simp [displayProcess, specLineAmended, renderColumns, specOwnerCol, specCmdlineCol,
      specPathColAmended, specStartCol, specStateCol, startTimeColumn, strAppendAssocH,
      strAppendEmptyH, Option.getD]
